import Mathlib

/-!
Verification of the device-state synchronization core of the
homebridge-aldesVMC plugin against its natural-language specification.

The definitions below are a shallow embedding of the TypeScript source:
  * `src/unnamed/part_001` (`AldesAPI`): status decoding inside
    `getDeviceStatus`, the retry loops of `getDeviceStatus` / `setVmcMode`,
    `getApiHealth`, `resetApiState`;
  * `src/unnamed/part_002` (`VmcAccessory`): the mode/speed mapping
    `AldesModeToSpeed` / `SpeedToAldesMode` and the characteristic write
    handlers `handleActiveSet` / `handleRotationSpeedSet`.
JavaScript numbers are modelled as `ℚ` (the payloads carry small decimal
values), JS truthiness is made explicit, and the effectful parts are
modelled by passing the per-attempt results of the external calls
(token resolution, HTTP requests) as oracle functions.
-/

/-- A JSON-ish runtime value as the decoder sees it: the fields of the
provider's status payload are dynamically typed, and the source guards
each access with JS truthiness and `typeof` checks. -/
inductive JVal where
  | jnull
  | jbool (b : Bool)
  | jnum (q : ℚ)
  | jstr (s : String)
  | jobj (fields : List (String × JVal))

/-- JavaScript truthiness of a `JVal` (`undefined` is modelled by a field
being absent from the object, i.e. `Option.none` at lookup). -/
def JVal.truthy : JVal → Bool
  | .jnull => false
  | .jbool b => b
  | .jnum q => q ≠ 0
  | .jstr s => s ≠ ""
  | .jobj _ => true

/-- The nested `indicator` object of the payload: short field codes to
dynamic values. -/
abbrev JObj := List (String × JVal)

/-- Property lookup, `undefined` as `none`. -/
def jget (o : JObj) (k : String) : Option JVal :=
  (o.find? (fun p => p.1 == k)).map Prod.snd

/-- The three operating modes of the VMC (`VmcMode` in `aldes_api.ts`):
`V` = MODE_MIN (daily), `Y` = MODE_BOOST, `X` = MODE_MAX (guests). -/
inductive VmcMode where
  | V
  | Y
  | X
deriving DecidableEq, Repr, Fintype

/-- The check `['V', 'Y', 'X'].includes(value)` plus the cast to `VmcMode`. -/
def parseVmcMode : String → Option VmcMode
  | "V" => some .V
  | "Y" => some .Y
  | "X" => some .X
  | _ => none

/-- The strict comparison `value === true` of the `SELF_CONTROLLED`
branch. -/
def JVal.isTrue : JVal → Bool
  | .jbool true => true
  | _ => false

/-- One entry of the flat `indicators` array of the payload
(interface `AldesIndicator` in `aldes_api.ts`). -/
structure AldesIndicator where
  type : String
  value : JVal

/-- The decoded `AldesDeviceStatus` record of `aldes_api.ts`; optional
fields absent (`undefined`) are `none`. -/
structure AldesDeviceStatus where
  isSelfControlled : Bool := false
  mode : Option VmcMode := none
  airQuality : Option ℚ := none
  co2Level : Option ℚ := none
  temperature : Option ℚ := none
  humidity : Option ℚ := none
  temperatureBa1 : Option ℚ := none
  humidityBa1 : Option ℚ := none
  temperatureBa2 : Option ℚ := none
  humidityBa2 : Option ℚ := none
  temperatureBa3 : Option ℚ := none
  humidityBa3 : Option ℚ := none
  temperatureBa4 : Option ℚ := none
  humidityBa4 : Option ℚ := none
  temperatureBa5 : Option ℚ := none
  humidityBa5 : Option ℚ := none
deriving DecidableEq, Repr

/-- The raw device-details payload (`AldesDeviceDetails`): an optional
flat `indicators` array and an optional nested `indicator` value. -/
structure AldesDeviceDetails where
  indicators : Option (List AldesIndicator)
  indicator : Option JVal

/-- One step of the first decoding pass (part_001 lines 352-366): the
if/else-if chain applied to one entry of the flat `indicators` array. -/
def applyFlatIndicator (st : AldesDeviceStatus) (ind : AldesIndicator) :
    AldesDeviceStatus :=
  if ind.type = "MODE" then
    match ind.value with
    | .jstr s =>
        match parseVmcMode s with
        | some m => { st with mode := some m }
        | none => st
    | _ => st
  else if ind.type = "SELF_CONTROLLED" then
    { st with isSelfControlled := ind.value.isTrue }
  else if ind.type = "QAI_INDEX" then
    match ind.value with
    | .jnum q => { st with airQuality := some q }
    | _ => st
  else
    st

/-- The first decoding pass (part_001 lines 345-366): start from
`{ isSelfControlled: false, mode: null }` and walk the flat array when it
is present. -/
def flatPass (inds : Option (List AldesIndicator)) : AldesDeviceStatus :=
  match inds with
  | some l => l.foldl applyFlatIndicator {}
  | none => {}

/-- The guard `indObj.K && typeof indObj.K === 'number'` followed by the
read of the numeric field `K` of the nested object: a value of `0` is
falsy, so it is treated exactly like an absent field. -/
def readNum (o : JObj) (k : String) : Option ℚ :=
  match jget o k with
  | some (.jnum q) => if q ≠ 0 then some q else none
  | _ => none

/-- The guard `indObj.K && typeof indObj.K === 'string' && includes(...)`
followed by the read of a mode-valued field `K` of the nested object. -/
def readMode (o : JObj) (k : String) : Option VmcMode :=
  match jget o k with
  | some v =>
      if v.truthy then
        match v with
        | .jstr s => parseVmcMode s
        | _ => none
      else none
  | none => none

/-- `status.X = v` for an unscaled numeric field of the nested object:
overwrite when the guarded read succeeds, keep the previous value
otherwise. -/
def updField (r : Option ℚ) (old : Option ℚ) : Option ℚ :=
  match r with
  | some q => some q
  | none => old

/-- Same for a raw temperature field, with the fixed-point correction
`/ 10` of the source. -/
def updScaled (r : Option ℚ) (old : Option ℚ) : Option ℚ :=
  match r with
  | some q => some (q / 10)
  | none => old

/-- The two chained `if (!status.mode && ...)` mode fallbacks of the
nested pass (part_001 lines 373-386): `ConVe`, then
`EASYHOME_CURRENT_MODE`, each consulted only while `status.mode` is still
unset. -/
def nestedMode (m0 : Option VmcMode) (o : JObj) : Option VmcMode :=
  match m0 with
  | some m => some m
  | none =>
      match readMode o "ConVe" with
      | some m => some m
      | none => readMode o "EASYHOME_CURRENT_MODE"

/-- The `if (!status.airQuality && indObj.Qai && typeof === 'object' &&
!== null)` fallback (part_001 lines 466-473): `!status.airQuality` is
true for `undefined` and for `0`; inside, `qai.actualValue` is guarded by
truthiness and `typeof number` like the other numeric fields. -/
def nestedAirQuality (a0 : Option ℚ) (o : JObj) : Option ℚ :=
  if a0 = none ∨ a0 = some 0 then
    match jget o "Qai" with
    | some (.jobj q) =>
        match readNum q "actualValue" with
        | some v => some v
        | none => a0
    | _ => a0
  else a0

/-- The second decoding pass (part_001 lines 368-474), over the nested
`indicator` object. The source assigns the fields one after another; no
assignment reads a field written by another, except that the mode
fallbacks and the `Qai` fallback read the value the flat pass left in
`status.mode` / `status.airQuality`, so the pass is the simultaneous
per-field update below. -/
def applyNested (st : AldesDeviceStatus) (o : JObj) : AldesDeviceStatus where
  isSelfControlled := st.isSelfControlled
  mode := nestedMode st.mode o
  airQuality := nestedAirQuality st.airQuality o
  co2Level := updField (readNum o "CO2") st.co2Level
  temperature := updScaled (readNum o "TmpCu") st.temperature
  humidity := updField (readNum o "HrCu") st.humidity
  temperatureBa1 := updScaled (readNum o "TmpBa1") st.temperatureBa1
  humidityBa1 := updField (readNum o "HrBa1") st.humidityBa1
  temperatureBa2 := updScaled (readNum o "TmpBa2") st.temperatureBa2
  humidityBa2 := updField (readNum o "HrBa2") st.humidityBa2
  temperatureBa3 := updScaled (readNum o "TmpBa3") st.temperatureBa3
  humidityBa3 := updField (readNum o "HrBa3") st.humidityBa3
  temperatureBa4 := updScaled (readNum o "TmpBa4") st.temperatureBa4
  humidityBa4 := updField (readNum o "HrBa4") st.humidityBa4
  temperatureBa5 := updScaled (readNum o "TmpBa5") st.temperatureBa5
  humidityBa5 := updField (readNum o "HrBa5") st.humidityBa5

/-- `if (response.data?.indicator && typeof === 'object')` (part_001
line 369): only a non-null object value enters the nested pass. -/
def nestedPass (st : AldesDeviceStatus) (indicator : Option JVal) :
    AldesDeviceStatus :=
  match indicator with
  | some (.jobj o) => applyNested st o
  | _ => st

/-- `if (!status.mode) status.mode = 'V'` (part_001 lines 477-480). -/
def defaultMode (st : AldesDeviceStatus) : AldesDeviceStatus :=
  if st.mode = none then { st with mode := some .V } else st

/-- The pure decoding core of `AldesAPI.getDeviceStatus` (part_001 lines
345-480): flat pass, then nested pass, then the MODE_MIN default. -/
def decodeDeviceStatus (d : AldesDeviceDetails) : AldesDeviceStatus :=
  defaultMode (nestedPass (flatPass d.indicators) d.indicator)

/-! ### API health bookkeeping (`AldesAPI`, part_001 lines 85-186)

The health state lives partly in instance fields (`consecutiveFailures`,
`lastSuccessfulApiCall`, `lastError`) and partly in the module-level
counter `pendingApiCalls`; timestamps are milliseconds from `Date.now()`.
-/

/-- The mutable health-tracking state of `AldesAPI`. -/
structure ApiState where
  consecutiveFailures : ℕ
  lastSuccessfulApiCall : ℤ
  pendingApiCalls : ℕ
  lastError : Option String
deriving DecidableEq, Repr

/-- The record returned by `AldesAPI.getApiHealth`. -/
structure ApiHealth where
  healthy : Bool
  lastSuccessful : Option ℤ
  pendingCalls : ℕ
  consecutiveFailures : ℕ
  lastError : Option String
deriving DecidableEq, Repr

/-- `AldesAPI.getApiHealth` (part_001 lines 163-178), with `Date.now()`
passed in as `now`. `lastSuccessful` is `this.lastSuccessfulApiCall ||
null`, so the initial value `0` is reported as `null`. -/
def getApiHealth (st : ApiState) (now : ℤ) : ApiHealth where
  healthy :=
    decide (st.consecutiveFailures < 3) &&
      decide (now - st.lastSuccessfulApiCall < 60000)
  lastSuccessful :=
    if st.lastSuccessfulApiCall = 0 then none else some st.lastSuccessfulApiCall
  pendingCalls := st.pendingApiCalls
  consecutiveFailures := st.consecutiveFailures
  lastError := st.lastError

/-- `AldesAPI.resetApiState` (part_001 lines 180-186): zero the failure
counter and the pending-call counter and drop the stored error;
`lastSuccessfulApiCall` is not touched. -/
def resetApiState (st : ApiState) : ApiState :=
  { st with consecutiveFailures := 0, lastError := none, pendingApiCalls := 0 }

/-! ### The retry loops of `getDeviceStatus` and `setVmcMode`
(part_001 lines 313-520 and 533-603)

Both are `for (attempt = 1; attempt <= MAX_RETRIES; attempt++)` loops.
The external calls are modelled by per-attempt oracles: `tokenAt n` is
what `getToken()` resolves to on attempt `n` (the source of `getToken`
catches every error internally, so it returns, never throws), and
`httpAt n` / `postAt n` is the outcome of the HTTP request of attempt
`n` — `.error` for a thrown transport error, `.ok` for a response
(`validateStatus` accepts 200-499, so 4xx arrive as responses while 5xx
and network errors are thrown).
-/

/-- `MAX_RETRIES` of part_001 line 12. -/
def MAX_RETRIES : ℕ := 3

/-- One iteration of the `getDeviceStatus` loop body (part_001 lines
315-517). Every branch of the body returns: the inner `try`/`catch`
(lines 328-498) returns the decoded status on success and returns `null`
from its `catch` on an HTTP failure, and nothing outside the inner `try`
can throw (`getToken` is total), so the outer `catch` — the only path
that continues to the next attempt — is unreachable and the body's value
is the call's value. -/
def getDeviceStatusBody (deviceId : String) (tokenAt : ℕ → Option String)
    (httpAt : ℕ → Except Unit AldesDeviceDetails) (attempt : ℕ) :
    Option AldesDeviceStatus :=
  match tokenAt attempt with
  | none => none
  | some _ =>
      if deviceId = "" then none
      else
        match httpAt attempt with
        | .ok d => some (decodeDeviceStatus d)
        | .error _ => none

/-- `AldesAPI.getDeviceStatus` as a function of its per-attempt oracles:
the loop runs its first iteration and that iteration returns on every
path, so later attempts are never consulted. -/
def getDeviceStatusModel (deviceId : String) (tokenAt : ℕ → Option String)
    (httpAt : ℕ → Except Unit AldesDeviceDetails) : Option AldesDeviceStatus :=
  getDeviceStatusBody deviceId tokenAt httpAt 1

/-- The `setVmcMode` loop (part_001 lines 534-601), from attempt
`attempt` with `fuel` iterations remaining; `fuel = 0` is the
`return false` fallthrough after the loop. `selfAt n` is what the
`isSelfControlled` pre-check reads on attempt `n`. A non-2xx response
(300-499) and a thrown error both retry while `attempt < MAX_RETRIES`
and return `false` on the last attempt. -/
def setVmcModeGo (deviceId : String) (selfAt : ℕ → Bool)
    (tokenAt : ℕ → Option String) (postAt : ℕ → Except Unit ℕ) :
    ℕ → ℕ → Bool
  | _, 0 => false
  | attempt, fuel + 1 =>
      if selfAt attempt then false
      else
        match tokenAt attempt with
        | none => false
        | some _ =>
            if deviceId = "" then false
            else
              match postAt attempt with
              | .ok s =>
                  if 200 ≤ s ∧ s < 300 then true
                  else if attempt < MAX_RETRIES then
                    setVmcModeGo deviceId selfAt tokenAt postAt (attempt + 1) fuel
                  else false
              | .error _ =>
                  if attempt < MAX_RETRIES then
                    setVmcModeGo deviceId selfAt tokenAt postAt (attempt + 1) fuel
                  else false

/-- `AldesAPI.setVmcMode` as a function of its per-attempt oracles; the
requested mode only enters the request payload, not the control flow. -/
def setVmcModeModel (deviceId : String) (_mode : VmcMode) (selfAt : ℕ → Bool)
    (tokenAt : ℕ → Option String) (postAt : ℕ → Except Unit ℕ) : Bool :=
  setVmcModeGo deviceId selfAt tokenAt postAt 1 MAX_RETRIES

/-! ### The VMC accessory's mode mapping and write handlers
(part_002)
-/

/-- `AldesModeToSpeed` (part_002 lines 10-14): mode to HomeKit rotation
speed percentage. -/
def AldesModeToSpeed : VmcMode → ℕ
  | .V => 0
  | .Y => 50
  | .X => 100

/-- `SpeedToAldesMode` (part_002 lines 16-23): exact-match lookup with a
`'V'` fallback. -/
def SpeedToAldesMode (speed : ℕ) : VmcMode :=
  if speed = 0 then .V
  else if speed = 50 then .Y
  else if speed = 100 then .X
  else .V

/-- The accessory state the two write handlers consult (fields of
`VmcAccessory`); `lastApiUpdate` is the millisecond timestamp of the last
accepted speed command. -/
structure VmcState where
  deviceId : Option String
  currentMode : VmcMode
  isSelfControlled : Bool
  isApiCallInProgress : Bool
  lastApiUpdate : ℤ
deriving DecidableEq, Repr

/-- The `HapStatusError` codes the handlers throw. -/
inductive HapStatus where
  | serviceCommunicationFailure
  | resourceBusy
  | notAllowedInCurrentState
deriving DecidableEq, Repr

/-- Observable outcome of one handler call: the error thrown (if any),
the mode passed to the background `setVmcMode` call (if any), and the
accessory state as the handler body leaves it. -/
structure HandlerResult where
  error : Option HapStatus
  commandSent : Option VmcMode
  finalState : VmcState
deriving DecidableEq, Repr

/-- The target-mode computation of `handleActiveSet` (part_002 lines
537-574): `Active = 1` cycles V→Y→X→V, `Active = 0` always targets `V`,
and any other value falls back to the same cycle. -/
def activeTargetMode (current : VmcMode) (value : ℕ) : VmcMode :=
  if value = 1 then
    match current with
    | .V => .Y
    | .Y => .X
    | .X => .V
  else if value = 0 then .V
  else
    match current with
    | .V => .Y
    | .Y => .X
    | .X => .V

/-- The only effect `ensureApiHealth` (part_002 lines 97-123) has on the
handler state: an unhealthy API force-releases a held mutex; the helper
never throws and its return value is ignored by `handleActiveSet`. -/
def ensureApiHealthRelease (st : VmcState) (healthy : Bool) : VmcState :=
  if ¬healthy ∧ st.isApiCallInProgress then
    { st with isApiCallInProgress := false }
  else st

/-- `VmcAccessory.handleActiveSet` (part_002 lines 456-632). In order:
missing device id throws SERVICE_COMMUNICATION_FAILURE; `ensureApiHealth`
force-releases the mutex when the API is unhealthy (part_002 lines
97-123) and never throws; the SELF_CONTROLLED branch (lines 469-504)
schedules a UI revert and returns **without** throwing and without
calling `setVmcMode`; a held mutex throws RESOURCE_BUSY; otherwise the
target mode is computed, the cache updated, and `setVmcMode` started in
the background. There is no minimum-spacing check in this handler. -/
def handleActiveSet (st : VmcState) (healthy : Bool) (value : ℕ) :
    HandlerResult :=
  if st.deviceId = none then
    ⟨some .serviceCommunicationFailure, none, st⟩
  else
    let st := ensureApiHealthRelease st healthy
    if st.isSelfControlled then
      ⟨none, none, st⟩
    else if st.isApiCallInProgress then
      ⟨some .resourceBusy, none, st⟩
    else
      let targetMode := activeTargetMode st.currentMode value
      ⟨none, some targetMode,
        { st with currentMode := targetMode, isApiCallInProgress := true }⟩

/-- `VmcAccessory.handleRotationSpeedSet` (part_002 lines 644-814). In
order: missing device id throws SERVICE_COMMUNICATION_FAILURE; an
unhealthy API throws SERVICE_COMMUNICATION_FAILURE (lines 650-656); the
SELF_CONTROLLED branch (lines 660-700) returns without throwing and
without calling `setVmcMode`; a held mutex throws RESOURCE_BUSY; a call
within 1000 ms of the last accepted speed command throws RESOURCE_BUSY
(anti-thrashing, lines 719-735); a no-op speed returns after re-asserting
the UI; otherwise the cache is updated and `setVmcMode` started in the
background. -/
def handleRotationSpeedSet (st : VmcState) (healthy : Bool) (now : ℤ)
    (speed : ℕ) : HandlerResult :=
  if st.deviceId = none then
    ⟨some .serviceCommunicationFailure, none, st⟩
  else if ¬healthy then
    ⟨some .serviceCommunicationFailure, none, st⟩
  else if st.isSelfControlled then
    ⟨none, none, st⟩
  else if st.isApiCallInProgress then
    ⟨some .resourceBusy, none, st⟩
  else if now - st.lastApiUpdate < 1000 then
    ⟨some .resourceBusy, none, st⟩
  else
    let st := { st with isApiCallInProgress := true, lastApiUpdate := now }
    let targetMode := SpeedToAldesMode speed
    if st.currentMode = targetMode then
      ⟨none, none, st⟩
    else
      ⟨none, some targetMode, { st with currentMode := targetMode }⟩

/-! ### Helper lemmas -/

/-- The flat pass only ever writes `mode`, `isSelfControlled` and
`airQuality`; one step leaves every sensor field of the status as it
was. -/
lemma applyFlatIndicator_eq (st : AldesDeviceStatus) (ind : AldesIndicator) :
    ∃ m b a, applyFlatIndicator st ind =
      { st with mode := m, isSelfControlled := b, airQuality := a } := by
  unfold applyFlatIndicator
  repeat' split
  all_goals exact ⟨_, _, _, rfl⟩

/-- Folding the flat pass over a list also only writes those three
fields. -/
lemma foldl_applyFlatIndicator_eq (l : List AldesIndicator) :
    ∀ st : AldesDeviceStatus, ∃ m b a, l.foldl applyFlatIndicator st =
      { st with mode := m, isSelfControlled := b, airQuality := a } := by
  induction l with
  | nil =>
      intro st
      exact ⟨st.mode, st.isSelfControlled, st.airQuality, rfl⟩
  | cons x xs ih =>
      intro st
      obtain ⟨m1, b1, a1, h1⟩ := applyFlatIndicator_eq st x
      obtain ⟨m2, b2, a2, h2⟩ := ih (applyFlatIndicator st x)
      refine ⟨m2, b2, a2, ?_⟩
      rw [List.foldl_cons, h2, h1]

/-- The result of the flat pass: defaults everywhere except possibly
`mode`, `isSelfControlled` and `airQuality`. -/
lemma flatPass_eq (inds : Option (List AldesIndicator)) :
    ∃ m b a, flatPass inds =
      { mode := m, isSelfControlled := b, airQuality := a } := by
  cases inds with
  | none => exact ⟨none, false, none, rfl⟩
  | some l =>
      obtain ⟨m, b, a, h⟩ := foldl_applyFlatIndicator_eq l {}
      exact ⟨m, b, a, h⟩

/-- `defaultMode` only writes `mode`. -/
lemma defaultMode_eq (st : AldesDeviceStatus) :
    ∃ m, defaultMode st = { st with mode := m } := by
  unfold defaultMode
  split
  · exact ⟨some .V, rfl⟩
  · exact ⟨st.mode, rfl⟩

lemma defaultMode_airQuality (st : AldesDeviceStatus) :
    (defaultMode st).airQuality = st.airQuality := by
  obtain ⟨m, h⟩ := defaultMode_eq st
  rw [h]

lemma defaultMode_co2Level (st : AldesDeviceStatus) :
    (defaultMode st).co2Level = st.co2Level := by
  obtain ⟨m, h⟩ := defaultMode_eq st
  rw [h]

lemma defaultMode_temperature (st : AldesDeviceStatus) :
    (defaultMode st).temperature = st.temperature := by
  obtain ⟨m, h⟩ := defaultMode_eq st
  rw [h]

lemma defaultMode_humidity (st : AldesDeviceStatus) :
    (defaultMode st).humidity = st.humidity := by
  obtain ⟨m, h⟩ := defaultMode_eq st
  rw [h]

lemma defaultMode_mode_of_some (st : AldesDeviceStatus) (m : VmcMode)
    (h : st.mode = some m) : (defaultMode st).mode = some m := by
  unfold defaultMode
  rw [h]
  simpa using h

/-- A nested numeric field holding exactly `0` fails the truthiness
guard, so the guarded read reports it as absent. -/
lemma readNum_zero (o : JObj) (k : String) (h : jget o k = some (.jnum 0)) :
    readNum o k = none := by
  unfold readNum
  rw [h]
  simp


/-! ### Claim theorems -/

/-- C6: `AldesModeToSpeed` maps V, Y, X to 0, 50, 100, `SpeedToAldesMode`
maps those values back, the round trip is the identity on all three
modes, and the mode-to-speed map is injective, so the two maps form a
bijection between the three modes and the three canonical control
values. -/
theorem mode_speed_roundtrip_bijection :
    (∀ m : VmcMode, SpeedToAldesMode (AldesModeToSpeed m) = m) ∧
    AldesModeToSpeed .V = 0 ∧ AldesModeToSpeed .Y = 50 ∧
    AldesModeToSpeed .X = 100 ∧
    SpeedToAldesMode 0 = .V ∧ SpeedToAldesMode 50 = .Y ∧
    SpeedToAldesMode 100 = .X ∧
    (∀ m₁ m₂ : VmcMode, AldesModeToSpeed m₁ = AldesModeToSpeed m₂ →
      m₁ = m₂) := by
  decide

/-- Witness for C6: the injectivity clause applied at `V`, `V`. -/
theorem mode_speed_roundtrip_bijection_witness : VmcMode.V = VmcMode.V :=
  mode_speed_roundtrip_bijection.2.2.2.2.2.2.2 VmcMode.V VmcMode.V rfl

/-- C7: the derived health boolean of `getApiHealth` is true exactly when
the consecutive-failure counter is strictly below 3 and the last
successful API call lies less than 60000 ms in the past. -/
theorem getApiHealth_healthy_iff (st : ApiState) (now : ℤ) :
    (getApiHealth st now).healthy = true ↔
      (st.consecutiveFailures < 3 ∧ now - st.lastSuccessfulApiCall < 60000) := by
  simp [getApiHealth]

/-- Witness for C7: a fresh success 1 second ago with no failures is
healthy. -/
theorem getApiHealth_healthy_iff_witness :
    (getApiHealth ⟨0, 1000, 0, none⟩ 2000).healthy = true :=
  (getApiHealth_healthy_iff ⟨0, 1000, 0, none⟩ 2000).mpr (by decide)

/-- C10: `resetApiState` zeroes the consecutive-failure counter and the
pending-call counter and clears the stored error, but leaves the
last-successful-call timestamp unchanged; hence right after a reset the
health boolean is still false whenever the last success is 60 seconds or
more in the past. -/
theorem resetApiState_frame (st : ApiState) (now : ℤ) :
    (resetApiState st).lastSuccessfulApiCall = st.lastSuccessfulApiCall ∧
    (resetApiState st).consecutiveFailures = 0 ∧
    (resetApiState st).pendingApiCalls = 0 ∧
    (resetApiState st).lastError = none ∧
    (60000 ≤ now - st.lastSuccessfulApiCall →
      (getApiHealth (resetApiState st) now).healthy = false) := by
  refine ⟨rfl, rfl, rfl, rfl, fun h => ?_⟩
  simp only [getApiHealth, resetApiState]
  simp
  omega

/-- Witness for C10: five failures, last success at time 0, reset and
queried at time 60000 — the counters clear but health stays false. -/
theorem resetApiState_frame_witness :
    (getApiHealth (resetApiState ⟨5, 0, 2, some "boom"⟩) 60000).healthy
      = false :=
  (resetApiState_frame ⟨5, 0, 2, some "boom"⟩ 60000).2.2.2.2 (by decide)

/-- C8: the payload with flat mode indicator `"V"` and nested fields
`CO2 = 450`, `TmpCu = 213` decodes to mode MODE_MIN, CO2 450 ppm taken
unscaled, and temperature 21.3 °C (213 divided by 10). -/
theorem decode_co2_temperature_example :
    decodeDeviceStatus
        ⟨some [⟨"MODE", .jstr "V"⟩],
         some (.jobj [("CO2", .jnum 450), ("TmpCu", .jnum 213)])⟩ =
      { isSelfControlled := false, mode := some .V, co2Level := some 450,
        temperature := some ((213 : ℚ) / 10) } ∧
    (213 : ℚ) / 10 = 21.3 := by
  constructor
  · rfl
  · norm_num

/-- C3 is refuted by the code: an HTTP failure on the first
`getDeviceStatus` attempt returns `null` at once — the inner catch
returns instead of rethrowing, so the retry arm of the loop never runs
even when the second attempt would have succeeded — while `setVmcMode`
under the analogous oracle does retry and succeeds on its second
attempt. -/
theorem getDeviceStatus_first_failure_not_retried :
    getDeviceStatusModel "dev" (fun _ => some "tok")
        (fun n => if n = 1 then .error () else
          .ok ⟨some [⟨"MODE", .jstr "Y"⟩], none⟩) = none ∧
    setVmcModeModel "dev" .Y (fun _ => false) (fun _ => some "tok")
        (fun n => if n = 1 then .error () else .ok 200) = true := by
  exact ⟨rfl, rfl⟩

/-- C1 is refuted by the code: when both encodings carry the field, the
decoder keeps the FLAT list's value, not the nested object's. With flat
`MODE = "Y"` against nested `ConVe = "V"` the result is `Y`, and with
flat `QAI_INDEX = 70` against nested `Qai.actualValue = 30` the result is
`70` — in both cases the flat value, where the claim demands the nested
one. -/
theorem nested_not_preferred_counterexample :
    (decodeDeviceStatus
        ⟨some [⟨"MODE", .jstr "Y"⟩],
         some (.jobj [("ConVe", .jstr "V")])⟩).mode = some VmcMode.Y ∧
    some VmcMode.Y ≠ some VmcMode.V ∧
    (decodeDeviceStatus
        ⟨some [⟨"QAI_INDEX", .jnum 70⟩],
         some (.jobj [("Qai", .jobj [("actualValue", .jnum 30)])])⟩).airQuality
      = some 70 ∧
    some (70 : ℚ) ≠ some (30 : ℚ) := by
  refine ⟨rfl, by decide, rfl, by decide⟩

/-- C1 amended: for the two fields carried by both encodings the decoder
prefers the FLAT indicator list — whenever the flat pass produced a mode,
the final mode is that value whatever the nested object says, and
whenever the flat pass produced a nonzero air-quality index, the final
air quality is that value; the nested object only serves as a
fallback. -/
theorem flat_list_preferred (inds : List AldesIndicator) (o : JObj)
    (m : VmcMode) (q : ℚ) :
    ((flatPass (some inds)).mode = some m →
      (decodeDeviceStatus ⟨some inds, some (.jobj o)⟩).mode = some m) ∧
    ((flatPass (some inds)).airQuality = some q → q ≠ 0 →
      (decodeDeviceStatus ⟨some inds, some (.jobj o)⟩).airQuality = some q) := by
  constructor
  · intro h
    have h1 : (applyNested (flatPass (some inds)) o).mode = some m := by
      show nestedMode (flatPass (some inds)).mode o = some m
      rw [h]
      rfl
    exact defaultMode_mode_of_some _ m h1
  · intro h hq
    show (defaultMode (applyNested (flatPass (some inds)) o)).airQuality
      = some q
    rw [defaultMode_airQuality]
    show nestedAirQuality (flatPass (some inds)).airQuality o = some q
    rw [h]
    unfold nestedAirQuality
    rw [if_neg]
    simp [hq]

/-- Witness for C1 amended: flat mode `Y` survives a nested `ConVe = "V"`,
and flat air quality `70` survives a nested `Qai.actualValue = 30`. -/
theorem flat_list_preferred_witness :
    (decodeDeviceStatus
        ⟨some [⟨"MODE", .jstr "Y"⟩],
         some (.jobj [("ConVe", .jstr "V")])⟩).mode = some VmcMode.Y ∧
    (decodeDeviceStatus
        ⟨some [⟨"QAI_INDEX", .jnum 70⟩],
         some (.jobj [("Qai", .jobj [("actualValue", .jnum 30)])])⟩).airQuality
      = some 70 :=
  ⟨(flat_list_preferred [⟨"MODE", .jstr "Y"⟩] [("ConVe", .jstr "V")]
      VmcMode.Y 70).1 rfl,
   (flat_list_preferred [⟨"QAI_INDEX", .jnum 70⟩]
      [("Qai", .jobj [("actualValue", .jnum 30)])] VmcMode.Y 70).2 rfl
      (by decide)⟩

/-- C9: a numeric field of the nested indicator object that is present
with value exactly 0 fails the JS truthiness guard and is decoded as if
it were absent — the corresponding optional status field stays `none`
(for the air-quality fallback: stays whatever the flat pass produced). -/
theorem zero_nested_fields_ignored (inds : Option (List AldesIndicator))
    (o : JObj) :
    (jget o "CO2" = some (.jnum 0) →
      (decodeDeviceStatus ⟨inds, some (.jobj o)⟩).co2Level = none) ∧
    (jget o "TmpCu" = some (.jnum 0) →
      (decodeDeviceStatus ⟨inds, some (.jobj o)⟩).temperature = none) ∧
    (jget o "HrCu" = some (.jnum 0) →
      (decodeDeviceStatus ⟨inds, some (.jobj o)⟩).humidity = none) ∧
    (jget o "TmpBa1" = some (.jnum 0) →
      (decodeDeviceStatus ⟨inds, some (.jobj o)⟩).temperatureBa1 = none) ∧
    (jget o "HrBa1" = some (.jnum 0) →
      (decodeDeviceStatus ⟨inds, some (.jobj o)⟩).humidityBa1 = none) ∧
    (jget o "TmpBa2" = some (.jnum 0) →
      (decodeDeviceStatus ⟨inds, some (.jobj o)⟩).temperatureBa2 = none) ∧
    (jget o "HrBa2" = some (.jnum 0) →
      (decodeDeviceStatus ⟨inds, some (.jobj o)⟩).humidityBa2 = none) ∧
    (jget o "TmpBa3" = some (.jnum 0) →
      (decodeDeviceStatus ⟨inds, some (.jobj o)⟩).temperatureBa3 = none) ∧
    (jget o "HrBa3" = some (.jnum 0) →
      (decodeDeviceStatus ⟨inds, some (.jobj o)⟩).humidityBa3 = none) ∧
    (jget o "TmpBa4" = some (.jnum 0) →
      (decodeDeviceStatus ⟨inds, some (.jobj o)⟩).temperatureBa4 = none) ∧
    (jget o "HrBa4" = some (.jnum 0) →
      (decodeDeviceStatus ⟨inds, some (.jobj o)⟩).humidityBa4 = none) ∧
    (jget o "TmpBa5" = some (.jnum 0) →
      (decodeDeviceStatus ⟨inds, some (.jobj o)⟩).temperatureBa5 = none) ∧
    (jget o "HrBa5" = some (.jnum 0) →
      (decodeDeviceStatus ⟨inds, some (.jobj o)⟩).humidityBa5 = none) ∧
    (∀ qo, jget o "Qai" = some (.jobj qo) →
      jget qo "actualValue" = some (.jnum 0) →
      (decodeDeviceStatus ⟨inds, some (.jobj o)⟩).airQuality
        = (flatPass inds).airQuality) := by
  obtain ⟨fm, fb, fa, hfp⟩ := flatPass_eq inds
  obtain ⟨dm, hdm⟩ := defaultMode_eq (applyNested (flatPass inds) o)
  have hdec : decodeDeviceStatus ⟨inds, some (.jobj o)⟩
      = { applyNested (flatPass inds) o with mode := dm } := hdm
  refine ⟨fun h => ?_, fun h => ?_, fun h => ?_, fun h => ?_, fun h => ?_,
    fun h => ?_, fun h => ?_, fun h => ?_, fun h => ?_, fun h => ?_,
    fun h => ?_, fun h => ?_, fun h => ?_, fun qo h1 h2 => ?_⟩
  case refine_14 =>
    rw [hdec]
    show nestedAirQuality (flatPass inds).airQuality o
      = (flatPass inds).airQuality
    unfold nestedAirQuality
    split
    · rw [h1]
      simp [readNum_zero qo "actualValue" h2]
    · rfl
  all_goals rw [hdec, hfp]
  all_goals simp [applyNested, readNum_zero _ _ h, updField, updScaled]

/-- Witness for C9: a payload whose nested object carries `CO2 = 0` and
`TmpCu = 0` decodes with both fields absent. -/
theorem zero_nested_fields_ignored_witness :
    (decodeDeviceStatus
        ⟨none, some (.jobj [("CO2", .jnum 0), ("TmpCu", .jnum 0)])⟩).co2Level
      = none ∧
    (decodeDeviceStatus
        ⟨none, some (.jobj [("CO2", .jnum 0), ("TmpCu", .jnum 0)])⟩).temperature
      = none :=
  ⟨(zero_nested_fields_ignored none
      [("CO2", .jnum 0), ("TmpCu", .jnum 0)]).1 rfl,
   (zero_nested_fields_ignored none
      [("CO2", .jnum 0), ("TmpCu", .jnum 0)]).2.1 rfl⟩

/-- C2 is refuted by the code: with the override (SELF_CONTROLLED) state
active, both write handlers complete WITHOUT an error — the source
reverts the UI and returns early instead of throwing — so neither
rejects with the state-conflict signal; no command is sent either
way. -/
theorem overridden_no_state_conflict_counterexample :
    (handleActiveSet ⟨some "dev", .V, true, false, 0⟩ true 1).error = none ∧
    (handleActiveSet ⟨some "dev", .V, true, false, 0⟩ true 1).commandSent
      = none ∧
    (handleRotationSpeedSet ⟨some "dev", .V, true, false, 0⟩ true 5000
        100).error = none ∧
    (handleRotationSpeedSet ⟨some "dev", .V, true, false, 0⟩ true 5000
        100).commandSent = none ∧
    (none : Option HapStatus) ≠ some .notAllowedInCurrentState := by
  decide

/-- C2 amended: while the override sub-state is active, `set_active` and
`set_level` never invoke `apply_mode` and never throw the state-conflict
signal; instead of rejecting they return without error (reverting the UI
in the background) whenever their earlier guards pass — for `set_active`
a present device id, for `set_level` a present device id and a healthy
API. -/
theorem overridden_blocks_commands (st : VmcState) (healthy : Bool)
    (value : ℕ) (now : ℤ) (speed : ℕ) (h : st.isSelfControlled = true) :
    (handleActiveSet st healthy value).commandSent = none ∧
    (handleRotationSpeedSet st healthy now speed).commandSent = none ∧
    (handleActiveSet st healthy value).error
      ≠ some .notAllowedInCurrentState ∧
    (handleRotationSpeedSet st healthy now speed).error
      ≠ some .notAllowedInCurrentState ∧
    (st.deviceId ≠ none → (handleActiveSet st healthy value).error = none) ∧
    (st.deviceId ≠ none → healthy = true →
      (handleRotationSpeedSet st healthy now speed).error = none) := by
  obtain ⟨d, cm, sc, ip, la⟩ := st
  simp only [VmcState.isSelfControlled] at h
  subst h
  unfold handleActiveSet handleRotationSpeedSet ensureApiHealthRelease
  split_ifs <;> simp_all

/-- Witness for C2 amended: concrete overridden state, both handlers
silent and command-free. -/
theorem overridden_blocks_commands_witness :
    (handleActiveSet ⟨some "dev", .V, true, false, 0⟩ true 1).commandSent
      = none ∧
    (handleActiveSet ⟨some "dev", .V, true, false, 0⟩ true 1).error = none :=
  ⟨(overridden_blocks_commands ⟨some "dev", .V, true, false, 0⟩ true 1 0 100
      rfl).1,
   (overridden_blocks_commands ⟨some "dev", .V, true, false, 0⟩ true 1 0 100
      rfl).2.2.2.2.1 (by decide)⟩

/-- C4: once `handleActiveSet` passes its guards (device id present, not
overridden, no command in flight), `Active = 0` always targets MODE_MIN
(`V`), and `Active = 1` from cached mode `V` targets the default active
mode MODE_BOOST (`Y`), never MODE_MAX (`X`). -/
theorem handleActiveSet_targets (st : VmcState) (healthy : Bool)
    (hd : st.deviceId ≠ none) (hs : st.isSelfControlled = false)
    (hm : st.isApiCallInProgress = false) :
    (handleActiveSet st healthy 0).commandSent = some .V ∧
    (st.currentMode = .V →
      (handleActiveSet st healthy 1).commandSent = some .Y ∧
      (handleActiveSet st healthy 1).commandSent ≠ some .X) := by
  obtain ⟨d, cm, sc, ip, la⟩ := st
  simp only [VmcState.isSelfControlled, VmcState.isApiCallInProgress,
    VmcState.deviceId, VmcState.currentMode] at hd hs hm ⊢
  subst hs
  subst hm
  unfold handleActiveSet ensureApiHealthRelease activeTargetMode
  split_ifs <;> simp_all

/-- Witness for C4: from cached mode `V`, `Active = 0` targets `V` and
`Active = 1` targets `Y`. -/
theorem handleActiveSet_targets_witness :
    (handleActiveSet ⟨some "dev", .V, false, false, 0⟩ true 0).commandSent
      = some .V ∧
    (handleActiveSet ⟨some "dev", .V, false, false, 0⟩ true 1).commandSent
      = some .Y :=
  ⟨(handleActiveSet_targets ⟨some "dev", .V, false, false, 0⟩ true
      (by decide) rfl rfl).1,
   ((handleActiveSet_targets ⟨some "dev", .V, false, false, 0⟩ true
      (by decide) rfl rfl).2 rfl).1⟩

/-- C5 is refuted by the code: the minimum-spacing (anti-thrashing) check
exists only in `handleRotationSpeedSet`. In the same state — last
accepted command at t = 0, next command at t = 500 ms, mutex free — a
speed write is rejected RESOURCE_BUSY but an Active write proceeds and
sends a command, where the claim demands both be rejected. -/
theorem spacing_not_checked_for_active_counterexample :
    (handleRotationSpeedSet ⟨some "dev", .V, false, false, 0⟩ true 500
        100).error = some HapStatus.resourceBusy ∧
    (handleActiveSet ⟨some "dev", .V, false, false, 0⟩ true 1).error
      = none ∧
    (handleActiveSet ⟨some "dev", .V, false, false, 0⟩ true 1).commandSent
      = some VmcMode.Y := by
  decide

/-- C5 amended: the in-flight mutex check applies to both handlers — with
a command in flight (and, for `set_active`, a healthy API, since an
unhealthy API force-releases the mutex first) either handler rejects with
RESOURCE_BUSY and sends nothing. The minimum-spacing check applies only
to `set_level`: a speed write within 1000 ms of the last accepted one
rejects RESOURCE_BUSY, while an Active write proceeds regardless of that
timestamp. -/
theorem mutex_both_spacing_rotation_only (st : VmcState) (healthy : Bool)
    (value : ℕ) (now : ℤ) (speed : ℕ)
    (hd : st.deviceId ≠ none) (hs : st.isSelfControlled = false) :
    (st.isApiCallInProgress = true → healthy = true →
      (handleActiveSet st healthy value).error = some .resourceBusy ∧
      (handleActiveSet st healthy value).commandSent = none) ∧
    (st.isApiCallInProgress = true → healthy = true →
      (handleRotationSpeedSet st healthy now speed).error
        = some .resourceBusy ∧
      (handleRotationSpeedSet st healthy now speed).commandSent = none) ∧
    (st.isApiCallInProgress = false → healthy = true →
      now - st.lastApiUpdate < 1000 →
      (handleRotationSpeedSet st healthy now speed).error
        = some .resourceBusy ∧
      (handleRotationSpeedSet st healthy now speed).commandSent = none) ∧
    (st.isApiCallInProgress = false →
      (handleActiveSet st healthy value).error = none ∧
      (handleActiveSet st healthy value).commandSent
        = some (activeTargetMode st.currentMode value)) := by
  obtain ⟨d, cm, sc, ip, la⟩ := st
  simp only [VmcState.isSelfControlled, VmcState.isApiCallInProgress,
    VmcState.deviceId, VmcState.lastApiUpdate, VmcState.currentMode]
    at hd hs ⊢
  subst hs
  unfold handleActiveSet handleRotationSpeedSet ensureApiHealthRelease
  split_ifs <;> simp_all

/-- Witness for C5 amended: with the mutex held, an Active write is
rejected RESOURCE_BUSY; with the mutex free but the last command 500 ms
ago, a speed write is rejected RESOURCE_BUSY. -/
theorem mutex_both_spacing_rotation_only_witness :
    (handleActiveSet ⟨some "dev", .V, false, true, 0⟩ true 1).error
      = some .resourceBusy ∧
    (handleRotationSpeedSet ⟨some "dev", .V, false, false, 0⟩ true 500
        100).error = some .resourceBusy :=
  ⟨((mutex_both_spacing_rotation_only ⟨some "dev", .V, false, true, 0⟩ true 1
      500 100 (by decide) rfl).1 rfl rfl).1,
   ((mutex_both_spacing_rotation_only ⟨some "dev", .V, false, false, 0⟩ true 1
      500 100 (by decide) rfl).2.2.1 rfl rfl (by decide)).1⟩
